import Mathlib

/-!
Verification of the icechecker repository against its specification.

The repository has two Python source files:
* `src/auto_icecheck.py` — an unattended batch job: builds a search URL per
  date, probes a JSON API for availability, and emails the available dates.
* `src/ice_checker.py` — an interactive dashboard: same URL builder, but the
  probe drives a headless browser, and results are rendered live.

This file gives a shallow embedding of the parts of both programs that the
frozen claims are about: the URL / query builder, the two availability-probe
variants (with their transport outcomes made explicit), the fan-out collection
loops, the date-window generation and day filters, and the email reporter.
Dates are modeled by their proleptic-Gregorian ordinal (as produced by Python
`datetime.date.toordinal`), so Python `date.weekday()` (Monday = 0) becomes
`fun d => (d + 6) % 7`.
-/

namespace IceChecker

/-- Python `str.lower` on the character data (ASCII case mapping per
character, which is what the availability comparison relies on). -/
def pyLower (s : String) : String := ⟨s.data.map Char.toLower⟩

/-- `hay` contains `needle` as a contiguous run of characters. -/
def ContainsL (hay needle : List Char) : Prop := ∃ p sfx, hay = p ++ needle ++ sfx

/-- Uppercase hexadecimal digit, as used by `urllib.parse.quote`. -/
def hexUpper (n : Nat) : Char := if n < 10 then Char.ofNat (48 + n) else Char.ofNat (55 + n)

/-- UTF-8 bytes of one character (as `Nat`s below 256). -/
def utf8Bytes (c : Char) : List Nat :=
  let n := c.toNat
  if n < 128 then [n]
  else if n < 2048 then [192 + n / 64, 128 + n % 64]
  else if n < 65536 then [224 + n / 4096, 128 + (n / 64) % 64, 128 + n % 64]
  else [240 + n / 262144, 128 + (n / 4096) % 64, 128 + (n / 64) % 64, 128 + n % 64]

/-- `urllib.parse.quote` (default `safe='/'`) on one character: ASCII
alphanumerics and `_.-~/` pass through, everything else is percent-encoded
byte by byte with uppercase hex. -/
def quoteChar (c : Char) : List Char :=
  if c.isAlphanum || c == '_' || c == '.' || c == '-' || c == '~' || c == '/' then [c]
  else (utf8Bytes c).flatMap (fun b => ['%', hexUpper (b / 16), hexUpper (b % 16)])

def quoteL (l : List Char) : List Char := l.flatMap quoteChar

/-- `urllib.parse.quote(s)` with the default safe set. -/
def quote (s : String) : String := ⟨quoteL s.data⟩

/-- Python `",".join(...)`. -/
def joinComma (l : List String) : String := String.intercalate "," l

/-- Python `t + ":00"` — the probe appends seconds to an `HH:MM` time. -/
def withSec (t : String) : String := t ++ ":00"

def BASE_SEARCH_URL : String := "https://anc.ca.apm.activecommunities.com/ottawa/reservation/search"

/-- The fixed query-string prefix shared by both sources; in
`ice_checker.py` it is assembled from `PARAMS_TEMPLATE`, producing this exact
text. -/
def QUERY_PREFIX : String := "?locale=en-US&attendee=15&resourceType=0&equipmentQty=1&eventDateAndTime="

/-- Pieces of `json.dumps(event_json)`: Python 3 dicts are insertion ordered
and `json.dumps` uses `", "` / `": "` separators, so the serialized event is
the concatenation below. -/
def EJ1 : String := "\x7b\"fullDayBooking\": false, \"eventDates\": [\""

def EJ2 : String := "\"], \"startTime\": \""

def EJ3 : String := "\", \"endTime\": \""

def EJ4 : String := "\", \"hoursPerDay\": 1, \"isHoursPerDay\": true\x7d"

/-- `json.dumps(event_json)` from both `build_url_for_date` functions. -/
def eventJson (date_str start_time end_time : String) : String :=
  EJ1 ++ (date_str ++ (EJ2 ++ (withSec start_time ++ (EJ3 ++ (withSec end_time ++ EJ4)))))

/-- `build_url_for_date` from `src/auto_icecheck.py` (facility ids are ints,
joined with `','.join(str(f) for f in facility_ids)`). -/
def build_url_for_date (date_str start_time end_time : String) (facility_ids : List Nat) : String :=
  BASE_SEARCH_URL ++ (QUERY_PREFIX ++
    (quote (eventJson date_str start_time end_time) ++
      ("&facilityCenterIds=" ++ joinComma (facility_ids.map toString))))

/-- `build_url_for_date` from `src/ice_checker.py` (facility ids are already
strings, joined with `','.join(facility_ids)`); the query prefix built from
`PARAMS_TEMPLATE` is textually identical to the batch variant's. -/
def build_url_for_date_ui (date_str start_time end_time : String) (facility_ids : List String) : String :=
  BASE_SEARCH_URL ++ (QUERY_PREFIX ++
    (quote (eventJson date_str start_time end_time) ++
      ("&facilityCenterIds=" ++ joinComma facility_ids)))

theorem quoteL_append (a b : List Char) : quoteL (a ++ b) = quoteL a ++ quoteL b := by
  simp [quoteL]

theorem quote_data_append (a b : String) :
    (quote (a ++ b)).data = (quote a).data ++ (quote b).data := by
  simp [quote, String.data_append, quoteL_append]

theorem quoteChar_unreserved {c : Char} (h : c.isDigit = true ∨ c = '-') : quoteChar c = [c] := by
  rcases h with h | h
  · have : c.isAlphanum = true := by simp [Char.isAlphanum, h]
    simp [quoteChar, this]
  · subst h; rfl

theorem quoteL_id {l : List Char} (h : ∀ c ∈ l, c.isDigit = true ∨ c = '-') : quoteL l = l := by
  induction l with
  | nil => rfl
  | cons c cs ih =>
    have hc : quoteChar c = [c] := quoteChar_unreserved (h c (by simp))
    have hcs : quoteL cs = cs := ih (fun x hx => h x (by simp [hx]))
    simp [quoteL, List.flatMap_cons, hc]
    simpa [quoteL] using hcs

theorem containsL_here (n r : List Char) : ContainsL (n ++ r) n := ⟨[], r, by simp⟩

theorem containsL_self (n : List Char) : ContainsL n n := ⟨[], [], by simp⟩

theorem containsL_skip (x : List Char) {h n : List Char} (hc : ContainsL h n) :
    ContainsL (x ++ h) n := by
  obtain ⟨p, s, hp⟩ := hc
  exact ⟨x ++ p, s, by simp [hp, List.append_assoc]⟩

/-- One entry of the JSON response's `body.items` list, as consumed by
`check_availability` in `src/auto_icecheck.py`: only the string value of
`i.get("availability", "")` matters (`none` models a missing key). -/
structure Item where
  availability : Option String
deriving DecidableEq

/-- Outcome of the `requests.post` transport call in
`src/auto_icecheck.py`'s `check_availability`:
* `exn` — the call raised (network error or the 10s timeout);
* `resp status parse` — an HTTP response arrived with the given status;
  `parse` is the result of `r.json()` followed by `data['body']['items']`,
  where `Except.error ()` models any exception on that path (invalid JSON,
  missing `body` or `items` key, items of an unexpected shape). -/
inductive ApiResult where
  | exn : ApiResult
  | resp (status : Nat) (parse : Except Unit (List Item)) : ApiResult

/-- The per-item test `i.get("availability", "").lower() == "available"`. -/
def isAvailableItem (i : Item) : Bool := pyLower (i.availability.getD "") == "available"

/-- `check_availability` from `src/auto_icecheck.py`, with the transport
outcome made an explicit argument. The Python function wraps the whole
request/parse in `try/except` and falls through to
`return date_str, False, url_ref`, so it is total here (it never raises):
a 200 response with a well-shaped body yields `any(...)` over the items, and
every other outcome yields `false`. -/
def check_availability (http : ApiResult) (date_str start_time end_time : String)
    (facility_ids : List Nat) : String × Bool × String :=
  let url_ref := build_url_for_date date_str start_time end_time facility_ids
  match http with
  | ApiResult.exn => (date_str, false, url_ref)
  | ApiResult.resp status parse =>
    if status = 200 then
      match parse with
      | Except.ok items => (date_str, items.any isAvailableItem, url_ref)
      | Except.error _ => (date_str, false, url_ref)
    else (date_str, false, url_ref)

/-- Boolean substring test, modeling Python's `needle in hay`. -/
def listPrefixOf : List Char → List Char → Bool
  | [], _ => true
  | _ :: _, [] => false
  | a :: as, b :: bs => a == b && listPrefixOf as bs

def listContains (needle : List Char) : List Char → Bool
  | [] => listPrefixOf needle []
  | hay@(_ :: rest) => listPrefixOf needle hay || listContains needle rest

/-- Outcome of the browser interaction in `src/ice_checker.py`'s
`check_availability`:
* `pageLoadExn` — `driver.get(url)` raised (it is outside any `try`);
* `waitTimeout` — `wait.until(...)` raised (timeout of the 5s element wait
  or any other error), caught by the bare `except`;
* `found text` — the `card-section-actual__empty` element was located and
  has the given text. -/
inductive BrowserOutcome where
  | pageLoadExn : BrowserOutcome
  | waitTimeout : BrowserOutcome
  | found (text : String) : BrowserOutcome
deriving DecidableEq

/-- What one run of the browser probe does: `result` is the value returned
to the caller (`Except.error ()` models an exception propagating out of the
function, which the fan-out loop's `future.result()` re-raises), and
`quitCalled` records whether the `driver.quit()` statement was reached. The
probe's float `runtime` field is not modeled. -/
structure UiProbeRun where
  result : Except Unit (String × Bool × String)
  quitCalled : Bool

/-- The availability flag computed inside the `try/except` of the browser
probe: an element-wait failure sets `status = True`; a located element sets
`status = False` exactly when its text contains `"No results found"`. -/
def uiStatus : BrowserOutcome → Bool
  | BrowserOutcome.pageLoadExn => true
  | BrowserOutcome.waitTimeout => true
  | BrowserOutcome.found text => !(listContains "No results found".data text.data)

/-- `check_availability` from `src/ice_checker.py` (the browser variant),
with the browser interaction's outcome made an explicit argument.
`driver.get(url)` sits outside the `try`, so `pageLoadExn` propagates and
`driver.quit()` is never reached on that path; on the other paths the
`try/except` completes and `driver.quit()` runs. -/
def ui_check_availability (b : BrowserOutcome) (date_str start_time end_time : String)
    (facility_ids : List String) : UiProbeRun :=
  let url := build_url_for_date_ui date_str start_time end_time facility_ids
  match b with
  | BrowserOutcome.pageLoadExn => ⟨Except.error (), false⟩
  | BrowserOutcome.waitTimeout => ⟨Except.ok (date_str, true, url), true⟩
  | BrowserOutcome.found text =>
      ⟨Except.ok (date_str, !(listContains "No results found".data text.data), url), true⟩

/-- The body of the result loop in `run_check` (`src/auto_icecheck.py`):
each completed future's `(date_str, status, url)` is appended to `results`
as `(date_str, url)` only when `status` is true. -/
def probe_entry (http : String → ApiResult) (start_time end_time : String)
    (facility_ids : List Nat) (d : String) : Option (String × String) :=
  let r := check_availability (http d) d start_time end_time facility_ids
  if r.2.1 then some (r.1, r.2.2) else none

/-- The collection loop of `run_check` (`src/auto_icecheck.py`, the
`as_completed` loop): `order` is the arrival order of the futures, an
arbitrary permutation of the submitted dates; `http` gives each date's
transport outcome. -/
def run_check_results (http : String → ApiResult) (order : List String)
    (start_time end_time : String) (facility_ids : List Nat) : List (String × String) :=
  order.filterMap (probe_entry http start_time end_time facility_ids)

/-- Python dict assignment `m[k] = v`: overwrite in place if the key exists,
else append (dicts are insertion ordered). -/
def dictInsert {V : Type} (m : List (String × V)) (k : String) (v : V) : List (String × V) :=
  if m.any (fun p => p.1 == k) then m.map (fun p => if p.1 == k then (k, v) else p)
  else m ++ [(k, v)]

/-- The `as_completed` loop of the interactive variant
(`src/ice_checker.py`, under `if check_button:`): each `future.result()`
either re-raises the probe's exception (aborting the whole loop) or stores
`(status, url)` in the `results` dict under the date key. -/
def ui_collect_aux (probe : String → BrowserOutcome) (start_time end_time : String)
    (facility_ids : List String) :
    List String → List (String × Bool × String) → Except Unit (List (String × Bool × String))
  | [], m => Except.ok m
  | d :: rest, m =>
    match (ui_check_availability (probe d) d start_time end_time facility_ids).result with
    | Except.error e => Except.error e
    | Except.ok r => ui_collect_aux probe start_time end_time facility_ids rest
        (dictInsert m r.1 (r.2.1, r.2.2))

def ui_collect (probe : String → BrowserOutcome) (order : List String)
    (start_time end_time : String) (facility_ids : List String) :
    Except Unit (List (String × Bool × String)) :=
  ui_collect_aux probe start_time end_time facility_ids order []

/-- Python `date.weekday()` (Monday = 0) of a date given by its proleptic
Gregorian ordinal: ordinal 1 (0001-01-01) is a Monday. -/
def weekday (d : Nat) : Nat := (d + 6) % 7

/-- `[start + timedelta(days=i) for i in range(numDays)]` — both sources
build the window this way (`num_days = 16` in the batch job, the slider
value in the dashboard). -/
def allDates (start numDays : Nat) : List Nat := (List.range numDays).map (fun i => start + i)

/-- The day-filter dispatch shared by both sources: `"Weekdays"` keeps
`d.weekday() < 5`, `"Weekends"` keeps `d.weekday() >= 5`, anything else
(the dashboard's `"Any Day"`) keeps every date. -/
def targetDates (dayFilter : String) (start numDays : Nat) : List Nat :=
  if dayFilter = "Weekdays" then (allDates start numDays).filter (fun d => weekday d < 5)
  else if dayFilter = "Weekends" then (allDates start numDays).filter (fun d => 5 ≤ weekday d)
  else allDates start numDays

/-- The email body built by `send_email` in `src/auto_icecheck.py`: a header
line, then one `"{date_str}: {url}\n"` line per collected result, appended
in a loop. -/
def email_body (results : List (String × String)) (label : String) : String :=
  results.foldl (fun acc p => acc ++ (p.1 ++ (": " ++ (p.2 ++ "\n"))))
    ("Ice available for " ++ (label ++ ":\n\n"))

/-- The reporting step at the end of `run_check` (`src/auto_icecheck.py`):
an email is composed and sent only `if results:`; `none` models the
"skipping email" branch. -/
def email_sent (results : List (String × String)) (label : String) : Option String :=
  if results = [] then none else some (email_body results label)

/-- Observable outcome of one `run_check` call in `src/auto_icecheck.py`:
`earlyReturn` is the `return` taken when no valid facility ids resolve
(before any date is generated, any probe dispatched, or any email composed);
`ran dates email` records the probed date strings and the email body sent
(if any). -/
inductive BatchOutcome where
  | earlyReturn : BatchOutcome
  | ran (dates : List String) (email : Option String) : BatchOutcome

/-- `run_check` from `src/auto_icecheck.py`. `iso` stands for
`date.isoformat()` on ordinals, `facilities` for the Supabase
description-to-ExtID table, `selected` for the default facility
descriptions (Unicode NFC normalization is the identity on the modeled
strings), `http` for each date's transport outcome and `arrival` for the
`as_completed` completion order of the submitted futures. -/
def run_check (iso : Nat → String) (facilities : List (String × Nat)) (selected : List String)
    (http : String → ApiResult) (arrival : List String → List String)
    (today : Nat) (start_time end_time dayFilter label : String) : BatchOutcome :=
  let facility_ids := selected.filterMap (fun desc => facilities.lookup desc)
  if facility_ids = [] then BatchOutcome.earlyReturn
  else
    let dates := (targetDates dayFilter today 16).map iso
    let results := run_check_results http (arrival dates) start_time end_time facility_ids
    BatchOutcome.ran dates (email_sent results label)

/-- Observable outcome of the `if check_button:` block in
`src/ice_checker.py`: an `st.warning` about the empty facility selection, the
"no ice times" message for an empty date list, or a completed collection
loop. -/
inductive UiOutcome where
  | warning (msg : String) : UiOutcome
  | noDatesMsg (msg : String) : UiOutcome
  | ran (r : Except Unit (List (String × Bool × String))) : UiOutcome

/-- The `if check_button:` handler of `src/ice_checker.py`, dispatching on
the resolved facility id list and the filtered target dates. -/
def check_button_handler (facility_ids : List String) (target_dates : List String)
    (probe : String → BrowserOutcome) (arrival : List String → List String)
    (start_time end_time : String) : UiOutcome :=
  if facility_ids = [] then UiOutcome.warning "Please select at least one facility."
  else if target_dates = [] then
    UiOutcome.noDatesMsg "No ice times were found for the selected dates."
  else UiOutcome.ran (ui_collect probe (arrival target_dates) start_time end_time facility_ids)

theorem pyLower_available : pyLower "available" = "available" := by decide

/-- Claim C9: the JSON-API probe reports `available = true` iff the HTTP
response has status 200 and some item of the parsed `body.items` list has an
`availability` field equal, case-insensitively, to `"available"` (the code
compares `i.get("availability", "").lower()` with the lowercase literal);
every other outcome — transport exception, non-200 status, parse failure, or
no matching item — yields `false`. -/
theorem C9_json_probe_iff (http : ApiResult) (d st en : String) (ids : List Nat) :
    (check_availability http d st en ids).2.1 = true ↔
      ∃ items, http = ApiResult.resp 200 (Except.ok items) ∧
        ∃ i ∈ items, pyLower (i.availability.getD "") = pyLower "available" := by
  rw [pyLower_available]
  cases http with
  | exn => simp [check_availability]
  | resp status parse =>
    by_cases hs : status = 200
    · subst hs
      cases parse with
      | ok items =>
        simp [check_availability, isAvailableItem, List.any_eq_true]
      | error e => simp [check_availability]
    · simp [check_availability, hs]

/-- Claim C1 (amended): the JSON-API probe of `src/auto_icecheck.py` is
fail-closed — on any transport error, timeout, non-200 status, or unexpected
response shape it returns `available = false`, and (being a total function:
the whole request sits in `try/except`) it never raises. The browser probe of
`src/ice_checker.py`, however, treats an element-wait error or timeout as
`available = true`, and a page-load exception propagates to its caller. -/
theorem C1_probe_failure_policy (http : ApiResult) (d st en : String) (ids : List Nat)
    (uids : List String)
    (hfail : ∀ items, http ≠ ApiResult.resp 200 (Except.ok items)) :
    (check_availability http d st en ids).2.1 = false
    ∧ (ui_check_availability BrowserOutcome.waitTimeout d st en uids).result
        = Except.ok (d, true, build_url_for_date_ui d st en uids)
    ∧ (ui_check_availability BrowserOutcome.pageLoadExn d st en uids).result
        = Except.error () := by
  refine ⟨?_, rfl, rfl⟩
  cases http with
  | exn => rfl
  | resp status parse =>
    by_cases hs : status = 200
    · subst hs
      cases parse with
      | ok items => exact absurd rfl (hfail items)
      | error e => rfl
    · simp [check_availability, hs]

/-- Claim C1 counterexample: a browser probe whose element wait times out
returns `available = true` (the bare `except` sets `status = True`), not
`false` as the claim states for every probe variant; and a browser probe
whose page load raises propagates the exception to its caller. -/
theorem C1_browser_fail_open :
    (ui_check_availability BrowserOutcome.waitTimeout "2025-11-03" "08:00" "21:00"
        ["12", "34"]).result
      = Except.ok ("2025-11-03", true,
          build_url_for_date_ui "2025-11-03" "08:00" "21:00" ["12", "34"])
    ∧ (ui_check_availability BrowserOutcome.pageLoadExn "2025-11-03" "08:00" "21:00"
        ["12", "34"]).result
      = Except.error () := ⟨rfl, rfl⟩

/-- Witness for the amended claim C1 at a concrete failing transport. -/
theorem C1_probe_failure_policy_witness :
    (∀ items, ApiResult.exn ≠ ApiResult.resp 200 (Except.ok items))
    ∧ ((check_availability ApiResult.exn "2025-11-04" "17:00" "21:00" [12]).2.1 = false
      ∧ (ui_check_availability BrowserOutcome.waitTimeout "2025-11-04" "17:00" "21:00"
            ["12"]).result
          = Except.ok ("2025-11-04", true, build_url_for_date_ui "2025-11-04" "17:00" "21:00" ["12"])
      ∧ (ui_check_availability BrowserOutcome.pageLoadExn "2025-11-04" "17:00" "21:00"
            ["12"]).result
          = Except.error ()) :=
  ⟨fun _ h => ApiResult.noConfusion h,
   C1_probe_failure_policy ApiResult.exn "2025-11-04" "17:00" "21:00" [12] ["12"]
     (fun _ h => ApiResult.noConfusion h)⟩

/-- Claim C2 (code bug in the source): when `driver.get(url)` raises — it
sits outside the probe's `try/except` — `driver.quit()` is never reached, so
the launched browser instance leaks on that exit path; the element-wait
exception path and the normal path do reach `driver.quit()`. -/
theorem C2_driver_quit_paths :
    (ui_check_availability BrowserOutcome.pageLoadExn "2025-11-03" "08:00" "21:00"
        ["12"]).quitCalled = false
    ∧ (ui_check_availability BrowserOutcome.waitTimeout "2025-11-03" "08:00" "21:00"
        ["12"]).quitCalled = true
    ∧ (ui_check_availability (BrowserOutcome.found "No results found") "2025-11-03" "08:00"
        "21:00" ["12"]).quitCalled = true := ⟨rfl, rfl, rfl⟩

theorem url_decomp (d st en : String) (ids : List Nat)
    (hdate : ∀ c ∈ d.data, c.isDigit = true ∨ c = '-') :
    (build_url_for_date d st en ids).data =
      BASE_SEARCH_URL.data ++ (QUERY_PREFIX.data ++ ((quote EJ1).data ++ (d.data ++
        ((quote EJ2).data ++ ((quote (withSec st)).data ++ ((quote EJ3).data ++
          ((quote (withSec en)).data ++ ((quote EJ4).data ++ ("&facilityCenterIds=".data ++
            (joinComma (ids.map toString)).data))))))))) := by
  have hd : (quote d).data = d.data := quoteL_id hdate
  simp [build_url_for_date, eventJson, String.data_append, quote_data_append, hd,
    List.append_assoc]

theorem url_decomp_ui (d st en : String) (uids : List String)
    (hdate : ∀ c ∈ d.data, c.isDigit = true ∨ c = '-') :
    (build_url_for_date_ui d st en uids).data =
      BASE_SEARCH_URL.data ++ (QUERY_PREFIX.data ++ ((quote EJ1).data ++ (d.data ++
        ((quote EJ2).data ++ ((quote (withSec st)).data ++ ((quote EJ3).data ++
          ((quote (withSec en)).data ++ ((quote EJ4).data ++ ("&facilityCenterIds=".data ++
            (joinComma uids).data))))))))) := by
  have hd : (quote d).data = d.data := quoteL_id hdate
  simp [build_url_for_date_ui, eventJson, String.data_append, quote_data_append, hd,
    List.append_assoc]

/-- Claim C3: for every non-empty facility id list, valid ISO date string
(digits and hyphens), and `HH:MM` times, both Query Builders produce a URL
that contains the date string verbatim (its characters are unreserved, so
`urllib.parse.quote` passes them through), the URL-encoded start and end
times with `":00"` seconds appended, and the facility ids joined by commas. -/
theorem C3_query_builder_link (d st en : String) (ids : List Nat) (uids : List String)
    (hdate : ∀ c ∈ d.data, c.isDigit = true ∨ c = '-')
    (_hids : ids ≠ []) (_huids : uids ≠ []) :
    (ContainsL (build_url_for_date d st en ids).data d.data
      ∧ ContainsL (build_url_for_date d st en ids).data (quote (st ++ ":00")).data
      ∧ ContainsL (build_url_for_date d st en ids).data (quote (en ++ ":00")).data
      ∧ ContainsL (build_url_for_date d st en ids).data (joinComma (ids.map toString)).data)
    ∧ (ContainsL (build_url_for_date_ui d st en uids).data d.data
      ∧ ContainsL (build_url_for_date_ui d st en uids).data (quote (st ++ ":00")).data
      ∧ ContainsL (build_url_for_date_ui d st en uids).data (quote (en ++ ":00")).data
      ∧ ContainsL (build_url_for_date_ui d st en uids).data (joinComma uids).data) := by
  have hurl := url_decomp d st en ids hdate
  have hurl2 := url_decomp_ui d st en uids hdate
  constructor
  · refine ⟨?_, ?_, ?_, ?_⟩ <;> rw [hurl]
    · exact containsL_skip _ (containsL_skip _ (containsL_skip _ (containsL_here _ _)))
    · exact containsL_skip _ (containsL_skip _ (containsL_skip _ (containsL_skip _
        (containsL_skip _ (containsL_here _ _)))))
    · exact containsL_skip _ (containsL_skip _ (containsL_skip _ (containsL_skip _
        (containsL_skip _ (containsL_skip _ (containsL_skip _ (containsL_here _ _)))))))
    · exact containsL_skip _ (containsL_skip _ (containsL_skip _ (containsL_skip _
        (containsL_skip _ (containsL_skip _ (containsL_skip _ (containsL_skip _
          (containsL_skip _ (containsL_skip _ (containsL_self _))))))))))
  · refine ⟨?_, ?_, ?_, ?_⟩ <;> rw [hurl2]
    · exact containsL_skip _ (containsL_skip _ (containsL_skip _ (containsL_here _ _)))
    · exact containsL_skip _ (containsL_skip _ (containsL_skip _ (containsL_skip _
        (containsL_skip _ (containsL_here _ _)))))
    · exact containsL_skip _ (containsL_skip _ (containsL_skip _ (containsL_skip _
        (containsL_skip _ (containsL_skip _ (containsL_skip _ (containsL_here _ _)))))))
    · exact containsL_skip _ (containsL_skip _ (containsL_skip _ (containsL_skip _
        (containsL_skip _ (containsL_skip _ (containsL_skip _ (containsL_skip _
          (containsL_skip _ (containsL_skip _ (containsL_self _))))))))))

/-- Witness for claim C3 at a concrete date, time window, and facility ids. -/
theorem C3_query_builder_link_witness :
    ((∀ c ∈ ("2025-11-01" : String).data, c.isDigit = true ∨ c = '-')
      ∧ ([12, 34] : List Nat) ≠ [] ∧ (["12", "34"] : List String) ≠ [])
    ∧ (ContainsL (build_url_for_date "2025-11-01" "17:00" "21:00" [12, 34]).data
        ("2025-11-01" : String).data
      ∧ ContainsL (build_url_for_date_ui "2025-11-01" "17:00" "21:00" ["12", "34"]).data
        (quote ("17:00" ++ ":00")).data) := by
  refine ⟨⟨by decide, by simp, by simp⟩, ?_, ?_⟩
  · exact (C3_query_builder_link "2025-11-01" "17:00" "21:00" [12, 34] ["12", "34"]
      (by decide) (by simp) (by simp)).1.1
  · exact (C3_query_builder_link "2025-11-01" "17:00" "21:00" [12, 34] ["12", "34"]
      (by decide) (by simp) (by simp)).2.2.1

theorem weekday_add (t i : Nat) : weekday (t + i) = (weekday t + i) % 7 := by
  unfold weekday; omega

/-- Claim C5: applying the `"Weekdays"` filter to the 16-day window of the
batch run, when the window begins on a Saturday (`weekday = 5`), yields
exactly the Monday-through-Friday dates of the window: offsets 2–6 and 9–13
from the start. -/
theorem C5_weekday_filter (today : Nat) (h : weekday today = 5) :
    targetDates "Weekdays" today 16 =
      [today + 2, today + 3, today + 4, today + 5, today + 6,
       today + 9, today + 10, today + 11, today + 12, today + 13] := by
  have key : ∀ i : Nat, weekday (today + i) = (5 + i) % 7 := fun i => by rw [weekday_add, h]
  have e1 : targetDates "Weekdays" today 16
      = ((List.range 16).map (fun i => today + i)).filter (fun d => weekday d < 5) := rfl
  rw [e1, show List.range 16 = [0, 1, 2, 3, 4, 5, 6, 7, 8, 9, 10, 11, 12, 13, 14, 15] from rfl]
  simp only [List.map_cons, List.map_nil, List.filter_cons, List.filter_nil, key]
  norm_num

/-- Witness for claim C5: ordinal 6 is a Saturday. -/
theorem C5_weekday_filter_witness :
    weekday 6 = 5 ∧ targetDates "Weekdays" 6 16 = [8, 9, 10, 11, 12, 15, 16, 17, 18, 19] :=
  ⟨by decide, by rw [C5_weekday_filter 6 (by decide)]⟩

/-- Claim C10: for every start date and day count, the `"Weekdays"` and
`"Weekends"` date lists are disjoint, their union (as sets) is the
`"Any Day"` list, and all three are in strictly ascending order. -/
theorem C10_day_filter_algebra (today n : Nat) :
    (∀ d, ¬(d ∈ targetDates "Weekdays" today n ∧ d ∈ targetDates "Weekends" today n))
    ∧ (∀ d, d ∈ targetDates "Any Day" today n ↔
        d ∈ targetDates "Weekdays" today n ∨ d ∈ targetDates "Weekends" today n)
    ∧ (targetDates "Weekdays" today n).Pairwise (· < ·)
    ∧ (targetDates "Weekends" today n).Pairwise (· < ·)
    ∧ (targetDates "Any Day" today n).Pairwise (· < ·) := by
  have hwk : targetDates "Weekdays" today n
      = (allDates today n).filter (fun d => weekday d < 5) := rfl
  have hwe : targetDates "Weekends" today n
      = (allDates today n).filter (fun d => 5 ≤ weekday d) := rfl
  have hany : targetDates "Any Day" today n = allDates today n := rfl
  have hsort : (allDates today n).Pairwise (· < ·) := by
    simp only [allDates]
    exact List.Pairwise.map _ (fun a b hab => by omega) (List.pairwise_lt_range n)
  refine ⟨?_, ?_, ?_, ?_, ?_⟩
  · intro d hd
    obtain ⟨h1, h2⟩ := hd
    rw [hwk] at h1; rw [hwe] at h2
    simp only [List.mem_filter, decide_eq_true_eq] at h1 h2
    omega
  · intro d
    rw [hany, hwk, hwe]
    simp only [List.mem_filter, decide_eq_true_eq]
    have : weekday d < 5 ∨ 5 ≤ weekday d := by omega
    tauto
  · rw [hwk]; exact hsort.filter _
  · rw [hwe]; exact hsort.filter _
  · rw [hany]; exact hsort

theorem foldl_append_extends {α : Type} (f : α → String) :
    ∀ (l : List α) (A : String), ∃ t : List Char,
      (l.foldl (fun acc x => acc ++ f x) A).data = A.data ++ t := by
  intro l
  induction l with
  | nil => intro A; exact ⟨[], by simp⟩
  | cons x xs ih =>
    intro A
    obtain ⟨t, ht⟩ := ih (A ++ f x)
    exact ⟨(f x).data ++ t, by
      simp [List.foldl_cons, ht, String.data_append, List.append_assoc]⟩

theorem foldl_contains {α : Type} (f : α → String) {p : α} :
    ∀ (l : List α) (A : String), p ∈ l →
      ContainsL (l.foldl (fun acc x => acc ++ f x) A).data (f p).data := by
  intro l
  induction l with
  | nil => intro A hp; cases hp
  | cons x xs ih =>
    intro A hp
    rcases List.mem_cons.mp hp with h | h
    · subst h
      obtain ⟨t, ht⟩ := foldl_append_extends f xs (A ++ f p)
      rw [List.foldl_cons, ht]
      exact ⟨A.data, t, by simp [String.data_append, List.append_assoc]⟩
    · exact ih (A ++ f x) h

/-- Claim C6: the batch Reporter sends no email when the collected available
results are empty (`if results:` fails), and for a non-empty collection it
composes one email whose body contains every available date together with
its reference link, as the line `"{date_str}: {url}\n"`. -/
theorem C6_reporter (results : List (String × String)) (label : String)
    (hne : results ≠ []) :
    email_sent [] label = none
    ∧ ∃ b, email_sent results label = some b
        ∧ ∀ p ∈ results, ContainsL b.data (p.1 ++ (": " ++ (p.2 ++ "\n"))).data := by
  refine ⟨rfl, email_body results label, ?_, ?_⟩
  · simp [email_sent, hne]
  · intro p hp
    exact foldl_contains (fun p => p.1 ++ (": " ++ (p.2 ++ "\n"))) results _ hp

/-- Witness for claim C6 at a one-element result list. -/
theorem C6_reporter_witness :
    ([("2025-11-03", "link")] : List (String × String)) ≠ []
    ∧ (email_sent [] "Weekday Evening" = none
      ∧ ∃ b, email_sent [("2025-11-03", "link")] "Weekday Evening" = some b
          ∧ ∀ p ∈ ([("2025-11-03", "link")] : List (String × String)),
              ContainsL b.data (p.1 ++ (": " ++ (p.2 ++ "\n"))).data) :=
  ⟨by simp, C6_reporter [("2025-11-03", "link")] "Weekday Evening" (by simp)⟩

/-- Claim C8: when the resolved facility id list is empty, the interactive
variant surfaces the `st.warning` message, and the batch variant's
`run_check` returns at `"No valid facility IDs found!"` before generating
dates, dispatching any probe, or composing any email. -/
theorem C8_empty_facility_guard (iso : Nat → String) (facilities : List (String × Nat))
    (selected : List String) (http : String → ApiResult)
    (arrival : List String → List String) (today : Nat)
    (st en dayFilter label : String)
    (targets : List String) (probe : String → BrowserOutcome)
    (uiarrival : List String → List String) (uist uien : String)
    (hresolved : selected.filterMap (fun desc => facilities.lookup desc) = []) :
    run_check iso facilities selected http arrival today st en dayFilter label
      = BatchOutcome.earlyReturn
    ∧ check_button_handler [] targets probe uiarrival uist uien
      = UiOutcome.warning "Please select at least one facility." := by
  constructor
  · simp [run_check, hresolved]
  · rfl

/-- Witness for claim C8: the selected description is absent from the
facility table, so no id resolves. -/
theorem C8_empty_facility_guard_witness :
    ((["Rink B"] : List String).filterMap
        (fun desc => ([("Rink A", 12)] : List (String × Nat)).lookup desc) = [])
    ∧ (run_check (fun _ => "") [("Rink A", 12)] ["Rink B"] (fun _ => ApiResult.exn)
          (fun l => l) 6 "17:00" "21:00" "Weekdays" "Weekday Evening"
        = BatchOutcome.earlyReturn
      ∧ check_button_handler [] ["2025-11-03"] (fun _ => BrowserOutcome.waitTimeout)
          (fun l => l) "08:00" "21:00"
        = UiOutcome.warning "Please select at least one facility.") :=
  ⟨rfl, C8_empty_facility_guard (fun _ => "") [("Rink A", 12)] ["Rink B"]
    (fun _ => ApiResult.exn) (fun l => l) 6 "17:00" "21:00" "Weekdays" "Weekday Evening"
    ["2025-11-03"] (fun _ => BrowserOutcome.waitTimeout) (fun l => l) "08:00" "21:00" rfl⟩

/-- The transport oracle of claim C7's scenario: the probes for the first
and third dates see a 200 response with an `"Available"` item, the others a
200 response with no matching item. -/
def http7 : String → ApiResult := fun d =>
  if d = "2025-11-03" ∨ d = "2025-11-05" then
    ApiResult.resp 200 (Except.ok [⟨some "Available"⟩])
  else ApiResult.resp 200 (Except.ok [])

/-- Claim C7: with input dates D1..D5 (2025-11-03 .. 2025-11-07) and
facility ids `[12, 34]`, if the probes for D1 and D3 report available and
those for D2, D4, D5 report unavailable, then — for every completion order —
the collected report consists exactly of the entries for D1 and D3, each
paired with the Query Builder link for its date, and contains no entry for
D2, D4, or D5. -/
theorem C7_report_example (order : List String)
    (h : order.Perm ["2025-11-03", "2025-11-04", "2025-11-05", "2025-11-06", "2025-11-07"]) :
    (run_check_results http7 order "17:00" "21:00" [12, 34]).Perm
      [("2025-11-03", build_url_for_date "2025-11-03" "17:00" "21:00" [12, 34]),
       ("2025-11-05", build_url_for_date "2025-11-05" "17:00" "21:00" [12, 34])]
    ∧ ∀ p ∈ run_check_results http7 order "17:00" "21:00" [12, 34],
        p.1 = "2025-11-03" ∨ p.1 = "2025-11-05" := by
  have hperm : (run_check_results http7 order "17:00" "21:00" [12, 34]).Perm
      (run_check_results http7
        ["2025-11-03", "2025-11-04", "2025-11-05", "2025-11-06", "2025-11-07"]
        "17:00" "21:00" [12, 34]) := h.filterMap _
  have hcomp : run_check_results http7
      ["2025-11-03", "2025-11-04", "2025-11-05", "2025-11-06", "2025-11-07"]
      "17:00" "21:00" [12, 34]
      = [("2025-11-03", build_url_for_date "2025-11-03" "17:00" "21:00" [12, 34]),
         ("2025-11-05", build_url_for_date "2025-11-05" "17:00" "21:00" [12, 34])] := rfl
  rw [hcomp] at hperm
  refine ⟨hperm, ?_⟩
  intro p hp
  have hmem := hperm.mem_iff.mp hp
  simp only [List.mem_cons, List.not_mem_nil, or_false] at hmem
  rcases hmem with h1 | h1
  · left; rw [h1]
  · right; rw [h1]

/-- Witness for claim C7 with the probes completing in submission order. -/
theorem C7_report_example_witness :
    (["2025-11-03", "2025-11-04", "2025-11-05", "2025-11-06", "2025-11-07"] : List String).Perm
      ["2025-11-03", "2025-11-04", "2025-11-05", "2025-11-06", "2025-11-07"]
    ∧ (run_check_results http7
        ["2025-11-03", "2025-11-04", "2025-11-05", "2025-11-06", "2025-11-07"]
        "17:00" "21:00" [12, 34]).Perm
      [("2025-11-03", build_url_for_date "2025-11-03" "17:00" "21:00" [12, 34]),
       ("2025-11-05", build_url_for_date "2025-11-05" "17:00" "21:00" [12, 34])] :=
  ⟨List.Perm.refl _,
   (C7_report_example ["2025-11-03", "2025-11-04", "2025-11-05", "2025-11-06", "2025-11-07"]
      (List.Perm.refl _)).1⟩

theorem ui_result_ok {b : BrowserOutcome} (hb : b ≠ BrowserOutcome.pageLoadExn)
    (d st en : String) (uids : List String) :
    (ui_check_availability b d st en uids).result
      = Except.ok (d, uiStatus b, build_url_for_date_ui d st en uids) := by
  cases b with
  | pageLoadExn => exact absurd rfl hb
  | waitTimeout => rfl
  | found t => rfl

theorem dictInsert_fresh {V : Type} (m : List (String × V)) (k : String) (v : V)
    (h : ∀ p ∈ m, p.1 ≠ k) : dictInsert m k v = m ++ [(k, v)] := by
  have hany : m.any (fun p => p.1 == k) = false := by
    rw [List.any_eq_false]
    intro p hp
    simpa using h p hp
  simp [dictInsert, hany]

theorem foldl_dictInsert_fresh {V : Type} (f : String → V) :
    ∀ (order : List String) (m : List (String × V)),
      order.Nodup → (∀ d ∈ order, ∀ p ∈ m, p.1 ≠ d) →
      order.foldl (fun m d => dictInsert m d (f d)) m
        = m ++ order.map (fun d => (d, f d)) := by
  intro order
  induction order with
  | nil => intro m _ _; simp
  | cons d rest ih =>
    intro m hnd hfresh
    rw [List.foldl_cons]
    have h1 : dictInsert m d (f d) = m ++ [(d, f d)] :=
      dictInsert_fresh m d (f d) (fun p hp => hfresh d (by simp) p hp)
    have h2 : ∀ d' ∈ rest, ∀ p ∈ m ++ [(d, f d)], p.1 ≠ d' := by
      intro d' hd' p hp
      rcases List.mem_append.mp hp with hc | hc
      · exact hfresh d' (by simp [hd']) p hc
      · simp only [List.mem_singleton] at hc
        subst hc
        show d ≠ d'
        intro he
        subst he
        exact (List.nodup_cons.mp hnd).1 hd'
    rw [h1, ih (m ++ [(d, f d)]) (List.nodup_cons.mp hnd).2 h2]
    simp [List.append_assoc]

theorem ui_collect_aux_ok (probe : String → BrowserOutcome) (st en : String)
    (uids : List String) :
    ∀ (order : List String) (m : List (String × Bool × String)),
      (∀ d ∈ order, probe d ≠ BrowserOutcome.pageLoadExn) →
      ui_collect_aux probe st en uids order m
        = Except.ok (order.foldl (fun m d =>
            dictInsert m d (uiStatus (probe d), build_url_for_date_ui d st en uids)) m) := by
  intro order
  induction order with
  | nil => intro m _; rfl
  | cons d rest ih =>
    intro m h
    rw [ui_collect_aux, ui_result_ok (h d (by simp)) d st en uids, List.foldl_cons]
    exact ih (dictInsert m d (uiStatus (probe d), build_url_for_date_ui d st en uids))
      (fun d' hd' => h d' (by simp [hd']))

theorem check_availability_fst (http : ApiResult) (d st en : String) (ids : List Nat) :
    (check_availability http d st en ids).1 = d := by
  cases http with
  | exn => rfl
  | resp status parse =>
    by_cases hs : status = 200
    · subst hs; cases parse <;> rfl
    · simp [check_availability, hs]

theorem check_availability_url (http : ApiResult) (d st en : String) (ids : List Nat) :
    (check_availability http d st en ids).2.2 = build_url_for_date d st en ids := by
  cases http with
  | exn => rfl
  | resp status parse =>
    by_cases hs : status = 200
    · subst hs; cases parse <;> rfl
    · simp [check_availability, hs]

theorem run_check_results_keys (http : String → ApiResult) (order : List String)
    (st en : String) (ids : List Nat) :
    (run_check_results http order st en ids).map Prod.fst
      = order.filter (fun d => (check_availability (http d) d st en ids).2.1) := by
  induction order with
  | nil => rfl
  | cons d rest ih =>
    simp only [run_check_results, List.filterMap_cons] at ih ⊢
    by_cases hc : (check_availability (http d) d st en ids).2.1 = true
    · simp [probe_entry, hc, List.filter_cons, ih, check_availability_fst]
    · simp [probe_entry, hc, List.filter_cons, ih]

theorem probe_entry_eq_some (http : String → ApiResult) (st en : String) (ids : List Nat)
    (x : String) (d u : String) :
    probe_entry http st en ids x = some (d, u) ↔
      (check_availability (http x) x st en ids).2.1 = true ∧ x = d
        ∧ u = build_url_for_date x st en ids := by
  have hf := check_availability_fst (http x) x st en ids
  have hu := check_availability_url (http x) x st en ids
  by_cases hc : (check_availability (http x) x st en ids).2.1 = true
  · simp only [probe_entry, hc, if_true, hf, hu, Option.some.injEq, Prod.mk.injEq,
      true_and]
    constructor
    · rintro ⟨h1, h2⟩; exact ⟨h1, h2.symm⟩
    · rintro ⟨h1, h2⟩; exact ⟨h1, h2.symm⟩
  · simp [probe_entry, hc]

/-- Claim C4 (amended): for every completion order of the dispatched probes
(modeled as a permutation of the distinct input dates):
the interactive variant's result dict — when every browser probe returns
normally — holds exactly one entry per input Query Window (its key multiset
is a permutation of the dates, each with count 1); the batch variant
processes every future's result but collects exactly the entries of the
windows whose probes reported available — its list is, for every completion
order, a permutation of the submission-order collection, its dates are
distinct, and an entry `(d, u)` occurs iff `d` is an input date whose probe
reported available, with `u` that date's Query Builder link. -/
theorem C4_fanout_collection (probe : String → BrowserOutcome) (http : String → ApiResult)
    (dates order : List String) (st en : String) (uids : List String) (ids : List Nat)
    (horder : order.Perm dates) (hnodup : dates.Nodup)
    (hnoexn : ∀ d ∈ dates, probe d ≠ BrowserOutcome.pageLoadExn) :
    (∃ m, ui_collect probe order st en uids = Except.ok m
      ∧ (m.map Prod.fst).Perm dates
      ∧ ∀ d ∈ dates, (m.map Prod.fst).count d = 1)
    ∧ (run_check_results http order st en ids).Perm (run_check_results http dates st en ids)
    ∧ ((run_check_results http order st en ids).map Prod.fst).Nodup
    ∧ ∀ d u, (d, u) ∈ run_check_results http order st en ids ↔
        (d ∈ dates ∧ (check_availability (http d) d st en ids).2.1 = true
          ∧ u = build_url_for_date d st en ids) := by
  have hordnd : order.Nodup := (horder.nodup_iff).mpr hnodup
  have hordexn : ∀ d ∈ order, probe d ≠ BrowserOutcome.pageLoadExn :=
    fun d hd => hnoexn d (horder.mem_iff.mp hd)
  refine ⟨?_, horder.filterMap _, ?_, ?_⟩
  · have hk : ∀ (l : List String),
        (l.map (fun d => (d, uiStatus (probe d), build_url_for_date_ui d st en uids))).map
          Prod.fst = l := by
      intro l
      induction l with
      | nil => rfl
      | cons a as iha => simp only [List.map_cons, iha]
    refine ⟨order.map (fun d => (d, uiStatus (probe d), build_url_for_date_ui d st en uids)),
      ?_, ?_, ?_⟩
    · rw [ui_collect, ui_collect_aux_ok probe st en uids order [] hordexn,
        foldl_dictInsert_fresh
          (fun d => (uiStatus (probe d), build_url_for_date_ui d st en uids)) order []
          hordnd (by simp)]
      simp
    · rw [hk]; exact horder
    · intro d hd
      rw [hk, horder.count_eq d]
      exact List.count_eq_one_of_mem hnodup hd
  · rw [run_check_results_keys]
    exact hordnd.filter _
  · intro d u
    simp only [run_check_results, List.mem_filterMap]
    constructor
    · rintro ⟨x, hx, hsome⟩
      obtain ⟨hc, hxd, hu⟩ := (probe_entry_eq_some http st en ids x d u).mp hsome
      subst hxd
      exact ⟨horder.mem_iff.mp hx, hc, hu⟩
    · rintro ⟨hd, hc, hu⟩
      exact ⟨d, horder.mem_iff.mpr hd,
        (probe_entry_eq_some http st en ids d d u).mpr ⟨hc, rfl, hu⟩⟩

/-- Claim C4 counterexample: with a single input Query Window whose probe
errors (so reports unavailable), the batch variant's collected `results`
list — built by `if status: results.append(...)` — contains no entry at all
for that window, not exactly one as the claim states. -/
theorem C4_no_entry_for_unavailable_window :
    List.countP (fun p => p.1 == "2025-11-03")
      (run_check_results (fun _ => ApiResult.exn) ["2025-11-03"] "17:00" "21:00" [12]) ≠ 1 := by
  decide

/-- Witness for the amended claim C4: two windows, arrival order reversed. -/
theorem C4_fanout_collection_witness :
    ((["2025-11-04", "2025-11-03"] : List String).Perm ["2025-11-03", "2025-11-04"]
      ∧ (["2025-11-03", "2025-11-04"] : List String).Nodup
      ∧ ∀ d ∈ (["2025-11-03", "2025-11-04"] : List String),
          (fun _ => BrowserOutcome.waitTimeout) d ≠ BrowserOutcome.pageLoadExn)
    ∧ (∃ m, ui_collect (fun _ => BrowserOutcome.waitTimeout) ["2025-11-04", "2025-11-03"]
          "08:00" "21:00" ["12"] = Except.ok m
        ∧ (m.map Prod.fst).Perm ["2025-11-03", "2025-11-04"]
        ∧ ∀ d ∈ (["2025-11-03", "2025-11-04"] : List String),
            (m.map Prod.fst).count d = 1) := by
  refine ⟨⟨by decide, by decide, by decide⟩, ?_⟩
  exact (C4_fanout_collection (fun _ => BrowserOutcome.waitTimeout) (fun _ => ApiResult.exn)
    ["2025-11-03", "2025-11-04"] ["2025-11-04", "2025-11-03"] "08:00" "21:00" ["12"] [12]
    (by decide) (by decide) (by decide)).1

end IceChecker
